import Mathlib

/-!
# Verification of the TD_Installment UI helpers

Shallow embedding of the two scripts of this repository:

* the modal dialog controller (`src/unnamed/part_000`): `prepareModal`,
  `closeModal`, `showModal`, `scrollControl`, the `successFail` / `notif` /
  `confirmModal` helpers and the fallback surface installed when the
  dialog region element is missing;
* the collapsible-panel toggler (`src/InstallmentProj/src/colaps.js`).

Element class lists are modelled as `Finset String` (class semantics in
the page is set based: `classList.add` is a no-op on a present token and
`classList.remove` on an absent one).  Timers, `transitionend` events and
promise continuations are modelled as explicit steps on a state record:
the synchronous body of a handler is one function, and the environment
delivering an event (a transition ending, a timer firing) is another.
-/

/-! ## Panel toggler (colaps.js)

Each panel is a (header, content, icon) triple; its mutable state is the
class list of the content element and of the icon element. -/

/-- State of one collapsible panel: the class set of the content element
(`button.nextElementSibling`) and of the icon element
(`button.querySelector(".fa-angle-down")`). -/
structure PanelState where
  content : Finset String
  icon : Finset String
  deriving DecidableEq

/-- The click handler of `colaps.js` lines 6–14: if the content element
carries `giveContent`, remove it and remove `active` from the icon;
otherwise add both. -/
def clickPanel (s : PanelState) : PanelState :=
  if "giveContent" ∈ s.content then
    { content := s.content.erase "giveContent", icon := s.icon.erase "active" }
  else
    { content := insert "giveContent" s.content, icon := insert "active" s.icon }

/-- The synchronization invariant of a panel: the icon carries `active`
exactly when the content carries `giveContent`. -/
def panelSync (s : PanelState) : Prop :=
  "giveContent" ∈ s.content ↔ "active" ∈ s.icon

/-- C10: after any click on a panel header, the icon element carries
`active` iff the content element carries `giveContent`, whatever the two
class sets were before the click.  In particular one click re-establishes
the invariant from any state and every later click preserves it. -/
theorem clickPanel_establishes_sync (s : PanelState) : panelSync (clickPanel s) := by
  unfold clickPanel panelSync
  by_cases h : "giveContent" ∈ s.content
  · simp [h, Finset.mem_erase]
  · simp [h, Finset.mem_insert]

/-- C8 counterexample: a panel whose content lacks `giveContent` while
the icon already carries `active` does not return to its initial state
after two clicks — the second click erases `active` from the icon. -/
theorem clickPanel_twice_not_involutive :
    clickPanel (clickPanel ⟨∅, {"active"}⟩) ≠ (⟨∅, {"active"}⟩ : PanelState) := by
  intro h
  have hicon := congrArg PanelState.icon h
  simp [clickPanel] at hicon
  exact Finset.singleton_ne_empty "active" hicon.symm

/-- C8 amended: for every panel whose icon `active` state agrees with the
content's `giveContent` state before the first click, clicking the header
twice returns both class sets to their initial state. -/
theorem clickPanel_twice_id_of_sync (s : PanelState) (h : panelSync s) :
    clickPanel (clickPanel s) = s := by
  unfold panelSync at h
  by_cases hc : "giveContent" ∈ s.content
  · have hi : "active" ∈ s.icon := h.mp hc
    simp only [clickPanel, hc, if_true]
    have hc' : "giveContent" ∉ s.content.erase "giveContent" := by
      simp [Finset.mem_erase]
    simp only [hc', if_neg, if_false]
    cases s
    simp_all [Finset.insert_erase]
  · have hi : "active" ∉ s.icon := fun ha => hc (h.mpr ha)
    simp only [clickPanel, hc, if_false]
    have hc' : "giveContent" ∈ insert "giveContent" s.content := Finset.mem_insert_self _ _
    simp only [hc', if_true]
    cases s
    simp_all [Finset.erase_insert]

/-- C8 amended, witness: the closed panel ⟨∅, ∅⟩ is synchronized and two
clicks return it to itself. -/
theorem clickPanel_twice_id_of_sync_witness :
    panelSync ⟨∅, ∅⟩ ∧ clickPanel (clickPanel ⟨∅, ∅⟩) = (⟨∅, ∅⟩ : PanelState) := by
  refine ⟨?_, clickPanel_twice_id_of_sync ⟨∅, ∅⟩ ?_⟩ <;> simp [panelSync]

/-! ## Scroll lock manager (`scrollControl`, part_000 lines 30–44) -/

/-- Page state touched by `scrollControl`: the vertical scroll offset
(`window.scrollY`), the body's class set and inline `top` style, the
document's `scroll-behavior` style, and `scrollControl.currentPos`, the
offset saved at lock time. -/
structure PageState where
  scrollY : Nat
  bodyClasses : Finset String
  bodyTop : String
  scrollBehavior : String
  currentPos : Nat
  deriving DecidableEq

/-- `scrollControl.lock` (lines 32–37): save the current scroll offset in
`currentPos`, add the `locked` class to the body, pin the body with a
negative `top` offset and disable smooth scrolling. -/
def scrollControl.lock (s : PageState) : PageState :=
  { s with currentPos := s.scrollY,
           bodyClasses := insert "locked" s.bodyClasses,
           bodyTop := "-" ++ toString s.scrollY ++ "px",
           scrollBehavior := "auto" }

/-- `scrollControl.unlock` (lines 38–43): remove the `locked` class,
clear the inline styles and scroll back to the saved offset
(`window.scrollTo(0, this.currentPos)`). -/
def scrollControl.unlock (s : PageState) : PageState :=
  { s with bodyClasses := s.bodyClasses.erase "locked",
           bodyTop := "",
           scrollBehavior := "",
           scrollY := s.currentPos }

/-- The scroll step taken by `showModal` (line 105):
`if (settings.scrollLock) scrollControl.lock()`. -/
def openScrollStep (scrollLock : Bool) (s : PageState) : PageState :=
  if scrollLock then scrollControl.lock s else s

/-- The scroll step taken by `closeModal`'s transition-end handler
(line 73): `if (settings.scrollLock) scrollControl.unlock()`. -/
def closeScrollStep (scrollLock : Bool) (s : PageState) : PageState :=
  if scrollLock then scrollControl.unlock s else s

/-- C7: with `scrollLock` false both the open-side and the close-side
scroll steps leave the page state untouched; with `scrollLock` true, the
unlock on close restores exactly the vertical scroll offset saved at lock
time, whatever offset `y'` the page moved to while the dialog was open. -/
theorem scrollSteps_noop_and_restore (s : PageState) (y' : Nat) :
    openScrollStep false s = s ∧ closeScrollStep false s = s ∧
    (closeScrollStep true { openScrollStep true s with scrollY := y' }).scrollY = s.scrollY := by
  refine ⟨rfl, rfl, ?_⟩
  simp [openScrollStep, closeScrollStep, scrollControl.lock, scrollControl.unlock]

/-! ## Modal controller core (`prepareModal` / `showModal` / `closeModal`,
part_000 lines 47–112)

The dialog region is the singleton `#modal` element; its mutable state is
its class set, the contents of its `.content` child, and the page state
of the scroll manager.  The asynchronous machinery is made explicit: the
synchronous body of `closeModal` is one step, and the environment
delivering a `transitionend` event or firing the 400-unit fallback timer
are further steps. -/

/-- An abstract detached document node (the `content instanceof Node`
branch of `showModal` only moves the node, never inspects it). -/
structure DomNode where
  id : Nat
  deriving DecidableEq

/-- A value passed as the `content` argument of an open call: a string, a
document node, or anything else (number, undefined, plain object, …)
tagged by a description. -/
inductive ContentArg where
  | str (s : String)
  | node (n : DomNode)
  | other (tag : String)
  deriving DecidableEq

/-- Contents of the dialog's `.content` container after `showModal` ran:
markup assigned through `innerHTML`, one appended child node, or empty. -/
inductive Rendered where
  | markup (s : String)
  | child (n : DomNode)
  | empty
  deriving DecidableEq

/-- `showModal`'s content handling (lines 91–97): clear the container;
a string is assigned to `innerHTML`, a node is appended, anything else
leaves the cleared container empty. -/
def renderContent : ContentArg → Rendered
  | .str s => .markup s
  | .node n => .child n
  | .other _ => .empty

/-- JavaScript `className.split(' ')` on the character list: split at
every single space, adjacent spaces yielding empty tokens. -/
def splitSp : List Char → List (List Char)
  | [] => [[]]
  | c :: rest =>
    match splitSp rest with
    | [] => [[]]
    | w :: ws => if c = ' ' then [] :: w :: ws else (c :: w) :: ws

/-- `className.split(' ')` (line 53). -/
def splitClasses (s : String) : List String :=
  (splitSp s.toList).map (fun w => String.mk w)

/-- The class set `prepareModal` leaves on the region (lines 52–53):
`modalElement.className = ''` discards every previous class, then
`classList.add(...className.split(' '))` adds the tokens of `className`
when it is non-empty (the empty string is falsy, so the guard skips). -/
def openClassSet (className : String) : Finset String :=
  if className = "" then ∅
  else (splitClasses className).foldl (fun acc c => insert c acc) ∅

/-- State of the modal controller: the region's class set, the `.content`
container, the scroll manager's page state, the `scrollLock` setting of
the current open call, whether a once-only `transitionend` listener and
the 400-unit fallback timer are pending, and whether the promise returned
by `closeModal` resp. by `prepareModal` has resolved. -/
structure ModalState where
  classes : Finset String
  container : Rendered
  page : PageState
  scrollLock : Bool
  listenerPending : Bool
  timerPending : Bool
  resolvedClose : Bool
  resolvedMain : Bool
  deriving DecidableEq

/-- The synchronous reset at the top of `prepareModal`'s executor
(lines 48, 51–54): record the merged settings' `scrollLock`, reset the
class list to the tokens of `className`, and create the fresh main
promise (not yet resolved). -/
def prepareModalReset (className : String) (scrollLock : Bool) (s : ModalState) : ModalState :=
  { s with classes := openClassSet className,
           scrollLock := scrollLock,
           resolvedMain := false }

/-- The rest of `showModal` (lines 90–106): render the content, add the
`active` class, and lock scrolling when `settings.scrollLock` is set. -/
def showModalStep (content : ContentArg) (s : ModalState) : ModalState :=
  { s with container := renderContent content,
           classes := insert "active" s.classes,
           page := openScrollStep s.scrollLock s.page }

/-- The synchronous body of `closeModal` (lines 66–86): when the region
does not carry `active`, resolve the close promise at once and return;
otherwise register a once-only `transitionend` listener, remove `active`,
and schedule the 400-unit fallback timer. -/
def closeStart (s : ModalState) : ModalState :=
  if "active" ∉ s.classes then
    { s with resolvedClose := true }
  else
    { s with listenerPending := true,
             classes := s.classes.erase "active",
             timerPending := true }

/-- The environment delivers the `transitionend` event: when a listener
is pending, `onTransitionEnd` (lines 72–76) runs once — unlock scroll if
`scrollLock` was set, resolve the close promise and the main promise. -/
def fireTransitionEnd (s : ModalState) : ModalState :=
  if s.listenerPending then
    { s with listenerPending := false,
             page := closeScrollStep s.scrollLock s.page,
             resolvedClose := true,
             resolvedMain := true }
  else s

/-- The 400-unit fallback timer fires (lines 82–86): its callback tests
`!modalElement.classList.contains('active')` and then does nothing — the
body of the conditional is empty, so the only state change is that the
timer is no longer pending. -/
def fireTimeout (s : ModalState) : ModalState :=
  if s.timerPending then { s with timerPending := false } else s

/-- A full open/close cycle: `prepareModal`'s reset, `showModal` with the
given content, then a close whose transition completes. -/
def openThenClose (className : String) (scrollLock : Bool) (content : ContentArg)
    (s : ModalState) : ModalState :=
  fireTransitionEnd (closeStart (showModalStep content (prepareModalReset className scrollLock s)))

/-- A concrete quiescent page used by the closed counterexamples. -/
def page0 : PageState :=
  { scrollY := 0, bodyClasses := ∅, bodyTop := "", scrollBehavior := "", currentPos := 0 }

/-- A concrete closed modal whose region carries the class `foo`. -/
def modalFoo : ModalState :=
  { classes := {"foo"}, container := .empty, page := page0, scrollLock := false,
    listenerPending := false, timerPending := false,
    resolvedClose := false, resolvedMain := false }

/-- C1 counterexample: opening the region (pre-open class set `{foo}`)
with class name `bar` and completing the close leaves the class set at
`{bar}`, not at the pre-open `{foo}` — `prepareModal` resets `className`
to the empty string before adding the new classes, and `closeModal` only
removes `active`. -/
theorem openThenClose_not_roundtrip :
    (openThenClose "bar" false (.str "hi") modalFoo).classes ≠ modalFoo.classes := by
  decide

/-- C1 amended: for every open call with class name `c` (whose tokens do
not include the visible marker `active`, true of every call site)
followed by a completed close, the region's class set equals exactly the
token set of `c`: the open discards the pre-open classes and the close
removes only `active`, so the round-trip holds only when the pre-open
class set already equalled the token set of `c`. -/
theorem openThenClose_classes_eq_openClassSet (className : String) (scrollLock : Bool)
    (content : ContentArg) (s : ModalState) (h : "active" ∉ openClassSet className) :
    (openThenClose className scrollLock content s).classes = openClassSet className := by
  unfold openThenClose closeStart showModalStep prepareModalReset
  simp only [Finset.mem_insert]
  rw [if_neg (by simp)]
  simp [fireTransitionEnd, Finset.erase_insert h]

/-- C1 amended, witness: at class name `bar` and the concrete pre-open
state `modalFoo`, `active` is not a token of `bar` and the cycle leaves
the class set `{bar}`. -/
theorem openThenClose_classes_eq_openClassSet_witness :
    "active" ∉ openClassSet "bar" ∧
      (openThenClose "bar" false (.str "hi") modalFoo).classes = openClassSet "bar" :=
  ⟨by decide, openThenClose_classes_eq_openClassSet "bar" false (.str "hi") modalFoo (by decide)⟩

/-- A concrete visible dialog opened with `scrollLock: true`: the region
carries `active`, the page was locked at scroll offset 5. -/
def modalVisibleLocked : ModalState :=
  { classes := {"active", "spinner"}, container := .empty,
    page := scrollControl.lock { page0 with scrollY := 5 },
    scrollLock := true, listenerPending := false, timerPending := false,
    resolvedClose := false, resolvedMain := false }

/-- C2, at the failing input: close a visible scroll-locked dialog and
let the 400-unit fallback timer fire without a `transitionend` event
ever arriving.  The timer's callback body is empty (lines 82–86: the
`if` holds only a comment), so after it fires the close promise and the
main promise are still unresolved, the page is still scroll-locked, and
the stale `transitionend` listener is still pending — the close never
completes, contrary to the fallback the code's own comments announce. -/
theorem closeModal_fallback_timer_does_not_complete :
    (fireTimeout (closeStart modalVisibleLocked)).timerPending = false ∧
    (fireTimeout (closeStart modalVisibleLocked)).resolvedClose = false ∧
    (fireTimeout (closeStart modalVisibleLocked)).resolvedMain = false ∧
    "locked" ∈ (fireTimeout (closeStart modalVisibleLocked)).page.bodyClasses ∧
    (fireTimeout (closeStart modalVisibleLocked)).listenerPending = true := by
  decide

/-- C3: calling close on a region that does not carry `active` resolves
the close promise at once, registers no `transitionend` listener,
schedules no timer, and leaves the class set, the page state and the
container untouched. -/
theorem closeStart_noop_when_closed (s : ModalState) (h : "active" ∉ s.classes) :
    (closeStart s).resolvedClose = true ∧
    (closeStart s).classes = s.classes ∧
    (closeStart s).listenerPending = s.listenerPending ∧
    (closeStart s).timerPending = s.timerPending ∧
    (closeStart s).page = s.page ∧
    (closeStart s).container = s.container := by
  simp [closeStart, h]

/-- C3 witness: the concrete closed modal `modalFoo` (class set `{foo}`)
satisfies the hypothesis and the conclusion. -/
theorem closeStart_noop_when_closed_witness :
    "active" ∉ modalFoo.classes ∧
      ((closeStart modalFoo).resolvedClose = true ∧
       (closeStart modalFoo).classes = modalFoo.classes ∧
       (closeStart modalFoo).listenerPending = modalFoo.listenerPending ∧
       (closeStart modalFoo).timerPending = modalFoo.timerPending ∧
       (closeStart modalFoo).page = modalFoo.page ∧
       (closeStart modalFoo).container = modalFoo.container) :=
  ⟨by decide, closeStart_noop_when_closed modalFoo (by decide)⟩

/-- C9: a content argument that is neither a string nor a document node
leaves the cleared `.content` container empty, and the open still
proceeds normally (the region is marked visible); `showModal` branches
only on `typeof content === 'string'` and `content instanceof Node` and
has no throwing or rejecting path. -/
theorem showModal_malformed_content_empty (tag : String) (s : ModalState) :
    (showModalStep (.other tag) s).container = Rendered.empty ∧
    (showModalStep (.other tag) s).classes = insert "active" s.classes :=
  ⟨rfl, rfl⟩

/-! ## Confirm dialog (`confirmModal`, part_000 lines 154–186) -/

/-- Settlement of the promise `confirmModal` returns: the affirmative
button resolves it (`close().then(resolve)`), the negative button rejects
it (`close().then(reject)`). -/
inductive ConfirmOutcome where
  | affirmative
  | negative
  deriving DecidableEq

/-- The two buttons of the choice dialog. -/
inductive ConfirmButton where
  | yes
  | no
  deriving DecidableEq

/-- Which settlement each button's handler registers (lines 169, 174). -/
def buttonOutcome : ConfirmButton → ConfirmOutcome
  | .yes => .affirmative
  | .no => .negative

/-- State of a `confirmModal` call: the modal state, the settlement of
the returned promise (`none` while pending), and the settlement a
button's `.then` continuation is waiting to deliver once the close
promise resolves. -/
structure ConfirmState where
  modal : ModalState
  outcome : Option ConfirmOutcome
  pendingOutcome : Option ConfirmOutcome
  deriving DecidableEq

/-- A button's click handler (lines 169 and 174): `close()` runs the
synchronous body of `closeModal`, and `.then(...)` registers the button's
settlement as a continuation of the close promise. -/
def clickConfirmButton (b : ConfirmButton) (s : ConfirmState) : ConfirmState :=
  { s with modal := closeStart s.modal,
           pendingOutcome := some (buttonOutcome b) }

/-- The promise machinery runs a registered `.then` continuation: the
settlement is delivered only once the close promise has resolved. -/
def deliverPending (s : ConfirmState) : ConfirmState :=
  if s.modal.resolvedClose then
    { s with outcome := s.pendingOutcome, pendingOutcome := none }
  else s

/-- The environment delivers `transitionend` to the modal of a confirm
call. -/
def confirmTransitionEnd (s : ConfirmState) : ConfirmState :=
  { s with modal := fireTransitionEnd s.modal }

/-- C5: on a visible, still-pending confirm dialog, each button's click
registers its settlement but delivers nothing while the close promise is
unresolved; once the close transition completes, the promise settles
affirmatively for the yes button and negatively for the no button, and at
that point the dialog is already closed (`active` removed, close promise
resolved) — the close strictly precedes the delivery. -/
theorem confirmModal_button_outcomes (b : ConfirmButton) (s : ConfirmState)
    (hvis : "active" ∈ s.modal.classes) (hres : s.modal.resolvedClose = false)
    (hout : s.outcome = none) :
    buttonOutcome .yes = .affirmative ∧ buttonOutcome .no = .negative ∧
    (deliverPending (clickConfirmButton b s)).outcome = none ∧
    (deliverPending (confirmTransitionEnd (clickConfirmButton b s))).outcome
        = some (buttonOutcome b) ∧
    "active" ∉ (deliverPending (confirmTransitionEnd (clickConfirmButton b s))).modal.classes ∧
    (deliverPending (confirmTransitionEnd (clickConfirmButton b s))).modal.resolvedClose = true := by
  have hcls : ¬ ("active" ∉ s.modal.classes) := not_not_intro hvis
  refine ⟨rfl, rfl, ?_, ?_, ?_, ?_⟩ <;>
    simp [clickConfirmButton, confirmTransitionEnd, deliverPending, closeStart,
      fireTransitionEnd, hcls, hres, hout, Finset.not_mem_erase]

/-- A concrete visible confirm dialog with pending promise. -/
def confirmOpen : ConfirmState :=
  { modal := { classes := {"active", "choice"}, container := .empty, page := page0,
               scrollLock := false, listenerPending := false, timerPending := false,
               resolvedClose := false, resolvedMain := false },
    outcome := none, pendingOutcome := none }

/-- C5 witness: the concrete dialog `confirmOpen` with the yes button
satisfies the hypotheses and the conclusion. -/
theorem confirmModal_button_outcomes_witness :
    ("active" ∈ confirmOpen.modal.classes ∧ confirmOpen.modal.resolvedClose = false ∧
      confirmOpen.outcome = none) ∧
    (buttonOutcome .yes = .affirmative ∧ buttonOutcome .no = .negative ∧
     (deliverPending (clickConfirmButton .yes confirmOpen)).outcome = none ∧
     (deliverPending (confirmTransitionEnd (clickConfirmButton .yes confirmOpen))).outcome
         = some (buttonOutcome .yes) ∧
     "active" ∉
       (deliverPending (confirmTransitionEnd (clickConfirmButton .yes confirmOpen))).modal.classes ∧
     (deliverPending
         (confirmTransitionEnd (clickConfirmButton .yes confirmOpen))).modal.resolvedClose
         = true) :=
  ⟨by refine ⟨by decide, rfl, rfl⟩,
   confirmModal_button_outcomes .yes confirmOpen (by decide) rfl rfl⟩

/-! ## Fallback surface when the dialog region is missing
(part_000 lines 12–25) -/

/-- The six operations of the public `callModal` surface. -/
inductive FallbackOp where
  | success
  | fail
  | spinner
  | confirm
  | notif
  | custom
  deriving DecidableEq

/-- What a fallback operation returns: `Promise.resolve()`,
`Promise.resolve(true)`, or no value at all (`undefined`). -/
inductive FallbackReturn where
  | resolvedUnit
  | resolvedTrue
  | undef
  deriving DecidableEq

/-- Observable behaviour of one fallback operation: whether its body
writes to the console, what it returns, whether it can throw, and
whether it invokes the callback it was handed. -/
structure FallbackBehavior where
  logs : Bool
  ret : FallbackReturn
  raises : Bool
  invokesCallback : Bool
  deriving DecidableEq

/-- The fallback `window.callModal` installed when `#modal` is absent
(lines 16–23): `success` logs and resolves, `fail` logs (to the error
console) and resolves, `spinner` invokes its callback and returns
nothing, `confirm` resolves with `true`, `notif` and `custom` resolve;
none of the six bodies contains a throwing statement. -/
def fallbackSurface : FallbackOp → FallbackBehavior
  | .success => { logs := true, ret := .resolvedUnit, raises := false, invokesCallback := false }
  | .fail => { logs := true, ret := .resolvedUnit, raises := false, invokesCallback := false }
  | .spinner => { logs := false, ret := .undef, raises := false, invokesCallback := true }
  | .confirm => { logs := false, ret := .resolvedTrue, raises := false, invokesCallback := false }
  | .notif => { logs := false, ret := .resolvedUnit, raises := false, invokesCallback := false }
  | .custom => { logs := false, ret := .resolvedUnit, raises := false, invokesCallback := false }

/-- A return is an already-completed result when it is a resolved
promise. -/
def isCompletedResult : FallbackReturn → Bool
  | .resolvedUnit => true
  | .resolvedTrue => true
  | .undef => false

/-- C4 counterexample: the fallback `spinner` is not "a no-op that logs
and returns an already-completed result" — it does not log and it
returns no result (it only invokes its callback). -/
theorem fallback_spinner_not_logging_completed :
    ¬ ((fallbackSurface .spinner).logs = true ∧
        isCompletedResult (fallbackSurface .spinner).ret = true) := by
  decide

/-- C4 amended: when the dialog region is absent at initialization, no
operation of the public surface can raise; `success` and `fail` log and
return an already-completed result; `confirm`, `notif` and `custom`
return an already-completed result without logging; `spinner` invokes
its callback and returns no result. -/
theorem fallback_surface_behavior :
    (∀ op : FallbackOp, (fallbackSurface op).raises = false) ∧
    (fallbackSurface .success).logs = true ∧
    isCompletedResult (fallbackSurface .success).ret = true ∧
    (fallbackSurface .fail).logs = true ∧
    isCompletedResult (fallbackSurface .fail).ret = true ∧
    (fallbackSurface .confirm).logs = false ∧
    isCompletedResult (fallbackSurface .confirm).ret = true ∧
    (fallbackSurface .notif).logs = false ∧
    isCompletedResult (fallbackSurface .notif).ret = true ∧
    (fallbackSurface .custom).logs = false ∧
    isCompletedResult (fallbackSurface .custom).ret = true ∧
    (fallbackSurface .spinner).logs = false ∧
    (fallbackSurface .spinner).ret = .undef ∧
    (fallbackSurface .spinner).invokesCallback = true := by
  refine ⟨fun op => by cases op <;> rfl, ?_⟩
  decide

/-! ## Success / fail notifications (`successFail`, part_000
lines 124–152) -/

/-- A message argument: a single string or an array of strings (the
common shape of MVC validation errors). -/
inductive MsgArg where
  | single (s : String)
  | list (l : List String)
  deriving DecidableEq

/-- JavaScript `Array.prototype.join('<br/>')`: the elements with a
`<br/>` line break between each adjacent pair, `""` on the empty array. -/
def joinBr : List String → String
  | [] => ""
  | [a] => a
  | a :: rest => a ++ "<br/>" ++ joinBr rest

/-- The message-body text `successFail` computes (lines 126–129): an
array is joined with `<br/>`, any other message is used as is. -/
def finalMsg : MsgArg → String
  | .single s => s
  | .list l => joinBr l

/-- The parts of the notification body built by `successFail` that the
message argument and the failure flag determine: the paragraph's markup
(`textNode.innerHTML`), the icon's markup (`icon.innerHTML`) and the
variant class passed on to `notif`. -/
structure SuccessFailDom where
  textHtml : String
  iconHtml : String
  variantClass : String
  deriving DecidableEq

/-- The notification body `successFail` builds (lines 131–151): the
paragraph's markup is the joined message, the icon and the variant class
depend on `isFailed`; `fail` calls it with `isFailed = true`, `success`
with `isFailed = false` (lines 208–209). -/
def successFailDom (msg : MsgArg) (isFailed : Bool) : SuccessFailDom :=
  { textHtml := finalMsg msg,
    iconHtml := if isFailed then "<i class=\"fas fa-times\"></i>"
                else "<i class=\"fas fa-check-circle\"></i>",
    variantClass := if isFailed then "error" else "success" }

/-- C6: for every list of message strings, the rendered body of `fail`
(and of `success`) is the elements joined by a `<br/>` line break —
characterized by the join recurrence on two or more lines and the
single-line base case — and in particular `fail(["a","b"])` renders
`a<br/>b`. -/
theorem successFail_joins_lines (a b : String) (l : List String) (isFailed : Bool) :
    (successFailDom (.list (a :: b :: l)) isFailed).textHtml
        = a ++ "<br/>" ++ (successFailDom (.list (b :: l)) isFailed).textHtml ∧
    (successFailDom (.list [a]) isFailed).textHtml = a ∧
    (successFailDom (.single a) isFailed).textHtml = a ∧
    (successFailDom (.list ["a", "b"]) true).textHtml = "a<br/>b" ∧
    (successFailDom (.list ["a", "b"]) false).textHtml = "a<br/>b" := by
  refine ⟨rfl, rfl, rfl, by decide, by decide⟩
